import Mathlib

/-
Verification of the store-and-forward subsystem, pipeline runtime and
message-bus trigger of the EdgeX app-functions SDK, as a shallow
embedding in Lean 4.

Source files embedded:
  internal/runtime/storeforward.go  (retry loop, processRetryItems,
                                     storeForLaterRetry, calculatePipelineHash)
  internal/trigger/messagebus       (processMessage response publishing)
  appsdk/triggerfactory.go          (RegisterCustomTriggerFactory)
Parts of the repository absent from the sources at hand (the pipeline
driver executePipeline, the V1-to-V2 event normalizer, the trigger type
constants) are modelled from the specification and marked as such.
-/

namespace AppFnSdk

/-- One stored record of the store-and-forward engine.  Mirrors
`contracts.StoredObject`: persistent id, service key, payload bytes,
pipeline resume position, pipeline hash (named `Version` in Go),
correlation/event metadata and the retry counter.  Go `int` fields are
embedded as `Int`; payload bytes as `List Nat` (byte values). -/
structure StoredObject where
  id : String
  appServiceKey : String
  payload : List Nat
  pipelinePosition : Nat
  version : String
  correlationID : String
  eventID : String
  eventChecksum : String
  retryCount : Int
deriving Repr, DecidableEq

/-- The `Writable.StoreAndForward` section of the configuration:
`Enabled`, `RetryInterval` (ms) and `MaxRetryCount` (Go `int`, hence
`Int`: negative values are representable). -/
structure StoreAndForwardInfo where
  enabled : Bool
  retryInterval : Int
  maxRetryCount : Int
deriving Repr, DecidableEq

/-- Embeds `storeForwardInfo.calculatePipelineHash` (storeforward.go):
starts from the literal `"Pipeline-functions: "` and appends a blank and
the reflected name of each transform, in order.  Transforms are
represented by their names. -/
def calculatePipelineHash (transformNames : List String) : String :=
  transformNames.foldl (fun hash name => hash ++ " " ++ name) "Pipeline-functions: "

/-- On which of the two result lists one iteration of the
`processRetryItems` loop appends its item, and with which field values. -/
inductive RetryDisposition where
  | toRemove (item : StoredObject)
  | toUpdate (item : StoredObject)
deriving Repr, DecidableEq

/-- Embeds the body of the `for` loop of
`storeForwardInfo.processRetryItems` (storeforward.go lines 131-156) for
a single item.  `hash` is the current pipeline hash (the source calls
`calculatePipelineHash()` afresh each iteration; it is deterministic, so
it is passed in once), `retryExport` is the
`retryExportFunction` re-execution oracle (`true` = retry succeeded). -/
def processRetryItem (hash : String) (retryExport : StoredObject → Bool)
    (cfg : StoreAndForwardInfo) (item : StoredObject) : RetryDisposition :=
  if item.version = hash then
    if retryExport item then
      -- export retry successful: removed from the DB unchanged
      .toRemove item
    else
      -- export retry failed: RetryCount incremented on the loop copy
      let item' := { item with retryCount := item.retryCount + 1 }
      if cfg.maxRetryCount = 0 ∨ item'.retryCount < cfg.maxRetryCount then
        .toUpdate item'
      else
        .toRemove item'
  else
    -- pipeline hash mismatch: removed unchanged, never retried
    .toRemove item

/-- The stored object carried by a disposition. -/
def RetryDisposition.item : RetryDisposition → StoredObject
  | .toRemove it => it
  | .toUpdate it => it

/-- Embeds `storeForwardInfo.processRetryItems` (storeforward.go lines
127-158): walks the retrieved items in order and builds the
`itemsToRemove` and `itemsToUpdate` lists, each in iteration order. -/
def processRetryItems (hash : String) (retryExport : StoredObject → Bool)
    (cfg : StoreAndForwardInfo) :
    List StoredObject → List StoredObject × List StoredObject
  | [] => ([], [])
  | item :: rest =>
    let r := processRetryItems hash retryExport cfg rest
    match processRetryItem hash retryExport cfg item with
    | .toRemove it => (it :: r.1, r.2)
    | .toUpdate it => (r.1, it :: r.2)

/-- Instrumentation of the same loop: the items for which
`retryExportFunction` is invoked, i.e. exactly those whose stored hash
matches the current one (storeforward.go lines 132-135). -/
def retryAttempts (hash : String) (items : List StoredObject) : List StoredObject :=
  items.filter (fun item => item.version == hash)

/-- Embeds the prologue of
`storeForwardInfo.startStoreAndForwardRetryLoop` (storeforward.go lines
47-55), run once before the first tick: the retry interval is clamped up
to `DefaultMinRetryInterval = 5000` and a negative `MaxRetryCount` is
coerced to `1` in the shared configuration used by every subsequent
tick. -/
def retryLoopStartup (cfg : StoreAndForwardInfo) : Int × StoreAndForwardInfo :=
  let retryInterval := if cfg.retryInterval < 5000 then 5000 else cfg.retryInterval
  let cfg' := if cfg.maxRetryCount < 0 then { cfg with maxRetryCount := 1 } else cfg
  (retryInterval, cfg')

/-- The per-message context (`appcontext.Context`), restricted to the
fields the embedded code reads: correlation/event metadata, the
`Writable.StoreAndForward` section of the configuration snapshot, the
retry-data slot, and the response slots inspected by the trigger. -/
structure AppContext where
  correlationID : String
  eventID : String
  eventChecksum : String
  config : StoreAndForwardInfo
  retryData : Option (List Nat)
  responseData : Option (List Nat)
  responseContentType : String
deriving Repr, DecidableEq

/-- The `storeForwardInfo` receiver: the service key
(`sf.runtime.ServiceKey`) and the pipeline hash captured at store
time. -/
structure StoreForwardInfo where
  serviceKey : String
  pipelineHash : String
deriving Repr, DecidableEq

/-- Embeds `storeForwardInfo.storeForLaterRetry` (storeforward.go lines
80-96).  The persistence port's `Store` is modelled as appending to the
list of stored objects (`Store` assigns the id; the model leaves it
empty).  When store-and-forward is not enabled in the context's
configuration the function logs and returns without calling `Store`, so
the store is unchanged. -/
def storeForLaterRetry (sf : StoreForwardInfo) (payload : List Nat)
    (ctx : AppContext) (pipelinePosition : Nat)
    (store : List StoredObject) : List StoredObject :=
  let item : StoredObject :=
    { id := "", appServiceKey := sf.serviceKey, payload := payload,
      pipelinePosition := pipelinePosition, version := sf.pipelineHash,
      correlationID := ctx.correlationID, eventID := ctx.eventID,
      eventChecksum := ctx.eventChecksum, retryCount := 0 }
  if !ctx.config.enabled then
    store
  else
    store ++ [item]

/-- The value flowing between pipeline stages: a data value (modelled as
a string), a Go `error` value, or `nil`. -/
inductive PipeValue where
  | data (s : String)
  | err (msg : String)
  | nil
deriving Repr, DecidableEq

/-- Whether the Go type assertion `result.(error)` succeeds. -/
def PipeValue.isError : PipeValue → Bool
  | .err _ => true
  | _ => false

/-- A transform function: `(context, input) → (continue?, output)`. -/
abbrev Transform := AppContext → PipeValue → Bool × PipeValue

/-- Result of driving one message through the pipeline: success, or the
stage error surfaced from position `pos`. -/
inductive PipelineResult where
  | ok
  | stageError (pos : Nat) (msg : String)
deriving Repr, DecidableEq

/-- Modelled from the spec: the pipeline driver `executePipeline`
(§4.2, execution rules 2c-2e and 3), whose Go source (runtime.go) is not
among the sources at hand — only its callers and tests are.  Walks the
transforms from position `pos`; a stage returning `continue?=true`
passes its output on; a stage returning `continue?=false` with an error
value yields that stage error, persisting the context's retry data via
`storeForLaterRetry` (source, storeforward.go) when the retry-data slot
is non-empty; a stage returning `continue?=false` with a non-error value
ends the pipeline successfully.  Returns the result, the number of
stages invoked, and the updated store. -/
def execLoop (sf : StoreForwardInfo) (ctx : AppContext) :
    List Transform → Nat → PipeValue → List StoredObject →
    PipelineResult × Nat × List StoredObject
  | [], _, _, store => (.ok, 0, store)
  | f :: rest, pos, v, store =>
    match f ctx v with
    | (true, out) =>
      let r := execLoop sf ctx rest (pos + 1) out store
      (r.1, r.2.1 + 1, r.2.2)
    | (false, out) =>
      match out with
      | .err msg =>
        let store' := match ctx.retryData with
          | some d => storeForLaterRetry sf d ctx pos store
          | none => store
        (.stageError pos msg, 1, store')
      | _ => (.ok, 1, store)

/-- Modelled from the spec: `executePipeline(input, …, transforms,
startPosition, …)` starts execution at `startPosition`. -/
def executePipeline (sf : StoreForwardInfo) (transforms : List Transform)
    (ctx : AppContext) (input : PipeValue) (startPosition : Nat)
    (store : List StoredObject) : PipelineResult × Nat × List StoredObject :=
  execLoop sf ctx (transforms.drop startPosition) startPosition input store

/-- Runs a list of stages under the assumption that each continues:
`some v` when every stage returned `continue?=true`, threading outputs,
and `none` as soon as one stopped.  Used to say that execution reaches a
given stage. -/
def runLeading (ctx : AppContext) : List Transform → PipeValue → Option PipeValue
  | [], v => some v
  | f :: rest, v =>
    match f ctx v with
    | (true, out) => runLeading ctx rest out
    | (false, _) => none

/-- The outbound message envelope built by the message-bus trigger. -/
structure MessageEnvelope where
  correlationID : String
  payload : List Nat
  contentType : String
deriving Repr, DecidableEq

/-- `clients.ContentTypeJSON`. -/
def ContentTypeJSON : String := "application/json"

/-- `clients.ContentTypeCBOR`. -/
def ContentTypeCBOR : String := "application/cbor"

/-- Embeds the response-publishing tail of the message-bus trigger's
`processMessage` (internal/trigger/messagebus, both the v1 and v2
variants, which are identical here): after a successful pipeline run,
if the response-data slot is non-nil an outbound envelope is built with
the same correlation id; its content type is the context's explicit
response content type when set, else `application/json` when the first
response byte is 123 (the open-curly-bracket byte), else
`application/cbor`.  The Go code indexes byte 0 unguarded; the
out-of-range panic on an empty payload is the outer `none`.  `some none`
means nothing is published; `some (some env)` means `env` is published
to the configured publish topic. -/
def messageBusResponse (correlationID : String) (responseContentType : String)
    (responseData : Option (List Nat)) : Option (Option MessageEnvelope) :=
  match responseData with
  | none => some none
  | some payload =>
    if responseContentType ≠ "" then
      some (some { correlationID := correlationID, payload := payload,
                   contentType := responseContentType })
    else
      match payload with
      | [] => none
      | b :: _ =>
        let contentType := if b = 123 then ContentTypeJSON else ContentTypeCBOR
        some (some { correlationID := correlationID, payload := payload,
                     contentType := contentType })

/-- Go's `strings.ToUpper`, embedded over the character list (the
trigger names involved are ASCII). -/
def upperGo (s : String) : String := ⟨s.data.map Char.toUpper⟩

/-- Modelled from the spec: the built-in trigger type constant `HTTP`
(declared outside the sources at hand). -/
def TriggerTypeHTTP : String := "HTTP"

/-- Modelled from the spec: the built-in trigger type constant
`EDGEX-MESSAGEBUS` (declared outside the sources at hand). -/
def TriggerTypeMessageBus : String := "EDGEX-MESSAGEBUS"

/-- Modelled from the spec: the built-in trigger type constant
`EXTERNAL-MQTT` (declared outside the sources at hand). -/
def TriggerTypeMQTT : String := "EXTERNAL-MQTT"

/-- Embeds `AppFunctionsSDK.RegisterCustomTriggerFactory`
(triggerfactory.go lines 59-83).  The custom-factory registry
(`sdk.customTriggerFactories`, a Go map) is modelled as an association
list with newest-first lookup; registration conses the upper-cased key.
A name whose upper-cased form collides with a built-in trigger type is
rejected with the source's error message and the registry is left
untouched (the function returns before the map assignment). -/
def registerCustomTriggerFactory (α : Type) (name : String) (factory : α)
    (registry : List (String × α)) : Except String (List (String × α)) :=
  let nu := upperGo name
  if nu = TriggerTypeMessageBus ∨ nu = TriggerTypeHTTP ∨ nu = TriggerTypeMQTT then
    .error ("cannot register custom trigger for builtin type (" ++ name ++ ")")
  else
    .ok ((nu, factory) :: registry)

/-- A legacy (V1) reading: flat fields `Id, Created, Origin, Device,
Name, ValueType, Value`. -/
structure V1Reading where
  id : String
  created : Int
  origin : Int
  device : String
  name : String
  valueType : String
  value : String
deriving Repr, DecidableEq

/-- A legacy (V1) event: flat fields `ID, Device, Created, Origin,
Readings`. -/
structure V1Event where
  id : String
  device : String
  created : Int
  origin : Int
  readings : List V1Reading
deriving Repr, DecidableEq

/-- A current (V2) reading (`dtos.BaseReading`), restricted to the
fields the normalization fills. -/
structure BaseReading where
  id : String
  created : Int
  origin : Int
  deviceName : String
  resourceName : String
  profileName : String
  valueType : String
  value : String
deriving Repr, DecidableEq

/-- The current (V2) canonical event (`dtos.Event`). -/
structure Event where
  id : String
  deviceName : String
  profileName : String
  created : Int
  origin : Int
  readings : List BaseReading
deriving Repr, DecidableEq

/-- Modelled from the spec: `GolangRuntime.unmarshalV1EventToV2Event`'s
normalization step, whose Go source is not among the sources at hand —
only its unit test is.  After the JSON/CBOR codec (external) produces a
legacy event, it is normalized into the current shape: flat fields are
renamed (`Device → DeviceName`, `Name → ResourceName`) and the
`ProfileName` fields, absent from the legacy schema, are filled with the
literal `"Unknown"` on the event and on every reading. -/
def unmarshalV1EventToV2Event (v1 : V1Event) : Event :=
  { id := v1.id
    deviceName := v1.device
    profileName := "Unknown"
    created := v1.created
    origin := v1.origin
    readings := v1.readings.map fun r =>
      { id := r.id, created := r.created, origin := r.origin,
        deviceName := r.device, resourceName := r.name,
        profileName := "Unknown", valueType := r.valueType,
        value := r.value } }

/-- The pipeline hash of the two-stage pipeline used by the unit tests
(`transformPassthru` then `HTTPPost`). -/
def hashMain : String := calculatePipelineHash ["transformPassthru", "HTTPPost"]

/-- A concrete stored object whose hash matches `hashMain`. -/
def sampleItem : StoredObject :=
  { id := "obj-1", appServiceKey := "AppService-UnitTest", payload := [77, 121],
    pipelinePosition := 1, version := hashMain,
    correlationID := "123-234-345-456", eventID := "", eventChecksum := "",
    retryCount := 0 }

/-- A concrete stored object whose hash does not match `hashMain`. -/
def staleItem : StoredObject :=
  { id := "obj-2", appServiceKey := "AppService-UnitTest", payload := [1, 2],
    pipelinePosition := 0, version := calculatePipelineHash ["oldTransform"],
    correlationID := "999-888", eventID := "", eventChecksum := "",
    retryCount := 4 }

/-- A configuration with a negative `MaxRetryCount`. -/
def cfgNegOne : StoreAndForwardInfo :=
  { enabled := true, retryInterval := 5000, maxRetryCount := -1 }

/-- A configuration with `MaxRetryCount = 3`. -/
def cfgThree : StoreAndForwardInfo :=
  { enabled := true, retryInterval := 5000, maxRetryCount := 3 }

/-- A configuration with `MaxRetryCount = -3` and a too-small interval. -/
def cfgNegThree : StoreAndForwardInfo :=
  { enabled := true, retryInterval := 100, maxRetryCount := -3 }

/-- A concrete `storeForwardInfo` receiver. -/
def sfMain : StoreForwardInfo :=
  { serviceKey := "AppService-UnitTest", pipelineHash := hashMain }

/-- A per-message context with store-and-forward enabled and no retry
data. -/
def ctxPlain : AppContext :=
  { correlationID := "123-234-345-456", eventID := "", eventChecksum := "",
    config := cfgThree, retryData := none, responseData := none,
    responseContentType := "" }

/-- A per-message context with store-and-forward disabled and a
populated retry-data slot. -/
def ctxDisabled : AppContext :=
  { correlationID := "123-234-345-456", eventID := "", eventChecksum := "",
    config := { enabled := false, retryInterval := 5000, maxRetryCount := 3 },
    retryData := some [7, 8], responseData := none, responseContentType := "" }

/-- A transform that passes its input through. -/
def tPass : Transform := fun _ v => (true, v)

/-- A transform that stops the pipeline cleanly with a non-error
output. -/
def tStop : Transform := fun _ _ => (false, .data "Transform1Result")

/-- A transform that would continue with a fresh output. -/
def tNext : Transform := fun _ _ => (true, .data "Hello")

/-- A transform that fails with an error value. -/
def tFail : Transform := fun _ _ => (false, .err "export failed")

/-- Unfolding equation of `processRetryItems` on a non-empty list. -/
theorem processRetryItems_cons (hash : String) (re : StoredObject → Bool)
    (cfg : StoreAndForwardInfo) (a : StoredObject) (rest : List StoredObject) :
    processRetryItems hash re cfg (a :: rest) =
      match processRetryItem hash re cfg a with
      | .toRemove it =>
        (it :: (processRetryItems hash re cfg rest).1,
         (processRetryItems hash re cfg rest).2)
      | .toUpdate it =>
        ((processRetryItems hash re cfg rest).1,
         it :: (processRetryItems hash re cfg rest).2) := rfl

/-- One loop iteration never changes the item's persistent id. -/
theorem processRetryItem_id (hash : String) (re : StoredObject → Bool)
    (cfg : StoreAndForwardInfo) (item : StoredObject) :
    (processRetryItem hash re cfg item).item.id = item.id := by
  unfold processRetryItem
  split
  · split
    · rfl
    · dsimp only
      split <;> rfl
  · rfl

/-- When re-execution of a matching item fails, the loop body appends
the incremented copy on the update list when `MaxRetryCount` is zero or
not yet reached, and on the remove list otherwise. -/
theorem processRetryItem_failed (hash : String) (re : StoredObject → Bool)
    (cfg : StoreAndForwardInfo) (item : StoredObject)
    (hver : item.version = hash) (hfail : re item = false) :
    processRetryItem hash re cfg item =
      if cfg.maxRetryCount = 0 ∨ item.retryCount + 1 < cfg.maxRetryCount then
        .toUpdate { item with retryCount := item.retryCount + 1 }
      else
        .toRemove { item with retryCount := item.retryCount + 1 } := by
  unfold processRetryItem
  rw [if_pos hver]
  simp [hfail]

/-- An item sent to the remove list by its loop iteration is a member of
the first result list of `processRetryItems`. -/
theorem mem_processRetryItems_fst {hash : String} {re : StoredObject → Bool}
    {cfg : StoreAndForwardInfo} {item x : StoredObject} :
    ∀ {items : List StoredObject}, item ∈ items →
      processRetryItem hash re cfg item = .toRemove x →
      x ∈ (processRetryItems hash re cfg items).1 := by
  intro items hmem hstep
  induction items with
  | nil => cases hmem
  | cons a rest ih =>
    rw [processRetryItems_cons]
    rcases List.mem_cons.mp hmem with h | h
    · subst h
      rw [hstep]
      exact List.mem_cons_self _ _
    · have hx := ih h
      cases hs : processRetryItem hash re cfg a with
      | toRemove it => simpa using Or.inr hx
      | toUpdate it => simpa using hx

/-- An item sent to the update list by its loop iteration is a member of
the second result list of `processRetryItems`. -/
theorem mem_processRetryItems_snd {hash : String} {re : StoredObject → Bool}
    {cfg : StoreAndForwardInfo} {item x : StoredObject} :
    ∀ {items : List StoredObject}, item ∈ items →
      processRetryItem hash re cfg item = .toUpdate x →
      x ∈ (processRetryItems hash re cfg items).2 := by
  intro items hmem hstep
  induction items with
  | nil => cases hmem
  | cons a rest ih =>
    rw [processRetryItems_cons]
    rcases List.mem_cons.mp hmem with h | h
    · subst h
      rw [hstep]
      exact List.mem_cons_self _ _
    · have hx := ih h
      cases hs : processRetryItem hash re cfg a with
      | toRemove it => simpa using hx
      | toUpdate it => simpa using Or.inr hx

/-- The ids on the two result lists of `processRetryItems` are a
permutation of the input ids. -/
theorem processRetryItems_ids_perm (hash : String) (re : StoredObject → Bool)
    (cfg : StoreAndForwardInfo) :
    ∀ items : List StoredObject,
      ((processRetryItems hash re cfg items).1.map StoredObject.id ++
        (processRetryItems hash re cfg items).2.map StoredObject.id).Perm
        (items.map StoredObject.id) := by
  intro items
  induction items with
  | nil => simp [processRetryItems]
  | cons a rest ih =>
    have hid := processRetryItem_id hash re cfg a
    rw [processRetryItems_cons]
    cases hs : processRetryItem hash re cfg a with
    | toRemove it =>
      have hit : it.id = a.id := by rw [hs] at hid; exact hid
      simpa [hit] using ih.cons a.id
    | toUpdate it =>
      have hit : it.id = a.id := by rw [hs] at hid; exact hid
      simp only [List.map_cons]
      exact List.Perm.trans List.perm_middle (by simpa [hit] using ih.cons a.id)

/-- Claim C1 counterexample: with `MaxRetryCount = -1` (not coerced, as
`processRetryItems` itself performs no coercion) a matching item whose
re-execution fails is placed on the remove list and the update list is
empty, whereas the claim's `otherwise` branch (`MaxRetryCount > 0` being
false) demands the update list. -/
theorem processRetryItems_negativeMax_cex :
    ¬ cfgNegOne.maxRetryCount > 0 ∧
    sampleItem.version = hashMain ∧
    processRetryItems hashMain (fun _ => false) cfgNegOne [sampleItem] =
      ([{ sampleItem with retryCount := 1 }], []) := by
  refine ⟨by decide, rfl, by decide⟩

/-- Claim C1 (amended): for every stored item whose pipeline hash
matches the current hash and whose retry re-execution fails,
`processRetryItems` increments the item's retryCount by exactly 1 and
then places it on the remove list when `MaxRetryCount ≠ 0` and the new
retryCount has reached `MaxRetryCount`, and on the update list otherwise
(in particular whenever `MaxRetryCount = 0`, meaning unbounded
retries).  For `MaxRetryCount ≥ 0` — which the retry loop's startup
coercion guarantees — the condition is equivalent to the claim's
`MaxRetryCount > 0`. -/
theorem processRetryItems_failedRetry (hash : String) (re : StoredObject → Bool)
    (cfg : StoreAndForwardInfo) (items : List StoredObject) (item : StoredObject)
    (hmem : item ∈ items) (hver : item.version = hash) (hfail : re item = false) :
    (processRetryItem hash re cfg item).item.retryCount = item.retryCount + 1 ∧
    (if cfg.maxRetryCount ≠ 0 ∧ cfg.maxRetryCount ≤ item.retryCount + 1 then
      processRetryItem hash re cfg item =
          .toRemove { item with retryCount := item.retryCount + 1 } ∧
        { item with retryCount := item.retryCount + 1 } ∈
          (processRetryItems hash re cfg items).1
    else
      processRetryItem hash re cfg item =
          .toUpdate { item with retryCount := item.retryCount + 1 } ∧
        { item with retryCount := item.retryCount + 1 } ∈
          (processRetryItems hash re cfg items).2) := by
  have hstep := processRetryItem_failed hash re cfg item hver hfail
  by_cases hc : cfg.maxRetryCount = 0 ∨ item.retryCount + 1 < cfg.maxRetryCount
  · rw [if_pos hc] at hstep
    rw [if_neg (by omega)]
    exact ⟨by rw [hstep]; rfl, hstep, mem_processRetryItems_snd hmem hstep⟩
  · rw [if_neg hc] at hstep
    rw [if_pos (by omega)]
    exact ⟨by rw [hstep]; rfl, hstep, mem_processRetryItems_fst hmem hstep⟩

/-- Claim C1 witness: a matching item with retryCount 0 failing under
`MaxRetryCount = 3` is incremented to 1 and placed on the update
list. -/
theorem processRetryItems_failedRetry_witness :
    sampleItem ∈ [sampleItem] ∧
    sampleItem.version = hashMain ∧
    processRetryItem hashMain (fun _ => false) cfgThree sampleItem =
      .toUpdate { sampleItem with retryCount := sampleItem.retryCount + 1 } ∧
    { sampleItem with retryCount := sampleItem.retryCount + 1 } ∈
      (processRetryItems hashMain (fun _ => false) cfgThree [sampleItem]).2 := by
  have h := processRetryItems_failedRetry hashMain (fun _ => false) cfgThree
    [sampleItem] sampleItem (List.mem_cons_self _ _) rfl rfl
  rw [if_neg (by decide)] at h
  exact ⟨List.mem_cons_self _ _, rfl, h.2.1, h.2.2⟩

/-- Claim C2: an item whose stored pipeline hash differs from the
current hash is sent unchanged (same record, same retryCount) to the
remove list, `retryExportFunction` is not invoked for it, and only items
whose hash matches appear among the attempted retries. -/
theorem processRetryItems_hashMismatch (hash : String) (re : StoredObject → Bool)
    (cfg : StoreAndForwardInfo) (items : List StoredObject) (item : StoredObject)
    (hver : item.version ≠ hash) :
    processRetryItem hash re cfg item = .toRemove item ∧
    (item ∈ items → item ∈ (processRetryItems hash re cfg items).1) ∧
    item ∉ retryAttempts hash items ∧
    ∀ it ∈ retryAttempts hash items, it.version = hash := by
  have hstep : processRetryItem hash re cfg item = .toRemove item := by
    unfold processRetryItem
    rw [if_neg hver]
  refine ⟨hstep, fun hmem => mem_processRetryItems_fst hmem hstep, ?_, ?_⟩
  · simp [retryAttempts, List.mem_filter, hver]
  · intro it hit
    have := (List.mem_filter.mp hit).2
    simpa using this

/-- Claim C2 witness: a stale item under the current hash `hashMain` is
removed unchanged and never attempted. -/
theorem processRetryItems_hashMismatch_witness :
    staleItem.version ≠ hashMain ∧
    processRetryItem hashMain (fun _ => false) cfgThree staleItem =
      .toRemove staleItem ∧
    staleItem ∈ (processRetryItems hashMain (fun _ => false) cfgThree [staleItem]).1 ∧
    staleItem ∉ retryAttempts hashMain [staleItem] := by
  have h := processRetryItems_hashMismatch hashMain (fun _ => false) cfgThree
    [staleItem] staleItem (by decide)
  exact ⟨by decide, h.1, h.2.1 (List.mem_cons_self _ _), h.2.2.1⟩

/-- Claim C8: when the retry loop starts with a negative
`MaxRetryCount`, the startup prologue coerces the stored configuration
value to 1 before the first tick, so that on every subsequent tick a
matching item whose re-execution fails (with a non-negative retryCount,
as all stored counters are) is removed after that single retry. -/
theorem retryLoopStartup_negativeMax (cfg : StoreAndForwardInfo)
    (hneg : cfg.maxRetryCount < 0) :
    (retryLoopStartup cfg).2.maxRetryCount = 1 ∧
    ∀ (hash : String) (re : StoredObject → Bool) (item : StoredObject),
      item.version = hash → re item = false → 0 ≤ item.retryCount →
      processRetryItem hash re (retryLoopStartup cfg).2 item =
        .toRemove { item with retryCount := item.retryCount + 1 } := by
  have hcfg : (retryLoopStartup cfg).2 = { cfg with maxRetryCount := 1 } := by
    simp [retryLoopStartup, hneg]
  refine ⟨by rw [hcfg], ?_⟩
  intro hash re item hver hfail hrc
  have hstep := processRetryItem_failed hash re (retryLoopStartup cfg).2 item hver hfail
  rw [hcfg] at hstep
  rw [hcfg]
  rwa [if_neg (by simpa using by omega : ¬((1 : Int) = 0 ∨ item.retryCount + 1 < 1))] at hstep

/-- Claim C8 witness: `MaxRetryCount = -3` is coerced to 1 and a
matching failing item is removed after one retry. -/
theorem retryLoopStartup_negativeMax_witness :
    cfgNegThree.maxRetryCount < 0 ∧
    (retryLoopStartup cfgNegThree).2.maxRetryCount = 1 ∧
    processRetryItem hashMain (fun _ => false) (retryLoopStartup cfgNegThree).2
        sampleItem =
      .toRemove { sampleItem with retryCount := sampleItem.retryCount + 1 } := by
  have h := retryLoopStartup_negativeMax cfgNegThree (by decide)
  exact ⟨by decide, h.1, h.2 hashMain (fun _ => false) sampleItem rfl rfl (by decide)⟩

/-- Claim C9: `processRetryItems` partitions its input — the ids on the
two result lists are a permutation of the input ids (so their lengths
sum to the input length and nothing is dropped), and when the input ids
are pairwise distinct (as store-assigned ids are) no id appears on both
lists. -/
theorem processRetryItems_partition (hash : String) (re : StoredObject → Bool)
    (cfg : StoreAndForwardInfo) (items : List StoredObject)
    (hnd : (items.map StoredObject.id).Nodup) :
    (processRetryItems hash re cfg items).1.length +
      (processRetryItems hash re cfg items).2.length = items.length ∧
    ((processRetryItems hash re cfg items).1.map StoredObject.id ++
      (processRetryItems hash re cfg items).2.map StoredObject.id).Perm
      (items.map StoredObject.id) ∧
    ∀ x ∈ (processRetryItems hash re cfg items).1,
      ∀ y ∈ (processRetryItems hash re cfg items).2, x.id ≠ y.id := by
  have hperm := processRetryItems_ids_perm hash re cfg items
  refine ⟨?_, hperm, ?_⟩
  · have := hperm.length_eq
    simpa using this
  · have hnd' := hperm.symm.nodup hnd
    rw [List.nodup_append] at hnd'
    intro x hx y hy heq
    exact hnd'.2.2 (List.mem_map_of_mem _ hx) (heq ▸ List.mem_map_of_mem _ hy)

/-- Claim C9 witness: a two-item batch with distinct ids is split into
lists whose lengths sum to 2. -/
theorem processRetryItems_partition_witness :
    ([sampleItem, staleItem].map StoredObject.id).Nodup ∧
    (processRetryItems hashMain (fun _ => false) cfgThree
        [sampleItem, staleItem]).1.length +
      (processRetryItems hashMain (fun _ => false) cfgThree
        [sampleItem, staleItem]).2.length = 2 := by
  have h := processRetryItems_partition hashMain (fun _ => false) cfgThree
    [sampleItem, staleItem] (by decide)
  exact ⟨by decide, h.1⟩

/-- Execution distributes over a leading segment whose stages all
continue: the tail runs from the advanced position and the leading
stages add their count to the number of invoked stages. -/
theorem execLoop_append (sf : StoreForwardInfo) (ctx : AppContext) :
    ∀ (leading rest : List Transform) (pos : Nat) (input v : PipeValue)
      (store : List StoredObject),
      runLeading ctx leading input = some v →
      execLoop sf ctx (leading ++ rest) pos input store =
        ((execLoop sf ctx rest (pos + leading.length) v store).1,
         leading.length + (execLoop sf ctx rest (pos + leading.length) v store).2.1,
         (execLoop sf ctx rest (pos + leading.length) v store).2.2) := by
  intro leading
  induction leading with
  | nil =>
    intro rest pos input v store hlead
    have hv : input = v := by simpa [runLeading] using hlead
    subst hv
    simp
  | cons g gs ih =>
    intro rest pos input v store hlead
    rcases hg : g ctx input with ⟨b, out⟩
    cases b with
    | false =>
      rw [runLeading, hg] at hlead
      cases hlead
    | true =>
      rw [runLeading, hg] at hlead
      have hrec := ih rest (pos + 1) out v store hlead
      rw [List.cons_append, execLoop, hg]
      dsimp only
      rw [hrec]
      have harith : pos + (g :: gs).length = pos + 1 + gs.length := by
        simp only [List.length_cons]
        omega
      rw [harith]
      simp only [Prod.mk.injEq, List.length_cons, true_and, and_true]
      omega

/-- A stage returning `continue?=false` with an error value yields that
stage error after invoking only itself, persisting the retry data when
the slot is populated. -/
theorem execLoop_stageError (sf : StoreForwardInfo) (ctx : AppContext)
    (f : Transform) (rest : List Transform) (pos : Nat) (v : PipeValue)
    (store : List StoredObject) (msg : String)
    (hf : f ctx v = (false, .err msg)) :
    execLoop sf ctx (f :: rest) pos v store =
      (.stageError pos msg, 1,
        match ctx.retryData with
        | some d => storeForLaterRetry sf d ctx pos store
        | none => store) := by
  rw [execLoop, hf]

/-- A stage returning `continue?=false` with a non-error output ends the
pipeline successfully after invoking only itself, leaving the store
untouched. -/
theorem execLoop_cleanStop (sf : StoreForwardInfo) (ctx : AppContext)
    (f : Transform) (rest : List Transform) (pos : Nat) (v out : PipeValue)
    (store : List StoredObject)
    (hf : f ctx v = (false, out)) (hnoterr : out.isError = false) :
    execLoop sf ctx (f :: rest) pos v store = (.ok, 1, store) := by
  rw [execLoop, hf]
  cases out with
  | data s => rfl
  | err msg => simp [PipeValue.isError] at hnoterr
  | nil => rfl

/-- Claim C3: when execution reaches a stage that fails with an error
value, the pipeline result is that stage error (surfaced to the caller
in every case), and the in-flight item is persisted if and only if
store-and-forward is enabled in the current configuration and the
retry-data slot is populated; when persisted, the stored record carries
the retry payload, the failing position, the correlation id and the
pipeline hash. -/
theorem executePipeline_stageError_persist (sf : StoreForwardInfo)
    (ctx : AppContext) (leading : List Transform) (f : Transform)
    (post : List Transform) (input v : PipeValue) (msg : String)
    (store : List StoredObject)
    (hlead : runLeading ctx leading input = some v)
    (hf : f ctx v = (false, .err msg)) :
    (executePipeline sf (leading ++ f :: post) ctx input 0 store).1 =
      .stageError leading.length msg ∧
    ((executePipeline sf (leading ++ f :: post) ctx input 0 store).2.2 = store ↔
      ¬(ctx.config.enabled = true ∧ ctx.retryData.isSome = true)) ∧
    ∀ d, ctx.retryData = some d → ctx.config.enabled = true →
      (executePipeline sf (leading ++ f :: post) ctx input 0 store).2.2 =
        store ++ [{ id := "", appServiceKey := sf.serviceKey, payload := d,
                    pipelinePosition := leading.length, version := sf.pipelineHash,
                    correlationID := ctx.correlationID, eventID := ctx.eventID,
                    eventChecksum := ctx.eventChecksum, retryCount := 0 }] := by
  have happ := execLoop_append sf ctx leading (f :: post) 0 input v store hlead
  have herr := execLoop_stageError sf ctx f post (0 + leading.length) v store msg hf
  have hexec :
      executePipeline sf (leading ++ f :: post) ctx input 0 store =
        (.stageError leading.length msg, leading.length + 1,
          match ctx.retryData with
          | some d => storeForLaterRetry sf d ctx leading.length store
          | none => store) := by
    rw [executePipeline, List.drop_zero, happ, herr]
    simp
  rw [hexec]
  refine ⟨rfl, ?_, ?_⟩
  · cases hrd : ctx.retryData with
    | none => simp
    | some d =>
      cases hen : ctx.config.enabled with
      | false => simp [storeForLaterRetry, hen]
      | true => simp [storeForLaterRetry, hen]
  · intro d hd hen
    rw [hd]
    simp [storeForLaterRetry, hen]

/-- Claim C3 witness: with store-and-forward disabled and the retry slot
populated, a failing first stage surfaces its error and the store is
unchanged (no `Store` call is made). -/
theorem executePipeline_stageError_persist_witness :
    runLeading ctxDisabled [] (.data "My Payload") = some (.data "My Payload") ∧
    tFail ctxDisabled (.data "My Payload") = (false, .err "export failed") ∧
    ctxDisabled.retryData.isSome = true ∧
    ctxDisabled.config.enabled = false ∧
    (executePipeline sfMain ([] ++ tFail :: []) ctxDisabled (.data "My Payload")
      0 []).1 = .stageError 0 "export failed" ∧
    (executePipeline sfMain ([] ++ tFail :: []) ctxDisabled (.data "My Payload")
      0 []).2.2 = [] := by
  have h := executePipeline_stageError_persist sfMain ctxDisabled [] tFail []
    (.data "My Payload") (.data "My Payload") "export failed" [] rfl rfl
  refine ⟨rfl, rfl, rfl, rfl, h.1, h.2.1.mpr (by decide)⟩

/-- Claim C4: when execution reaches a stage that returns
`continue?=false` with a non-error output, `processMessage` returns
success, exactly the stages up to and including that one are invoked —
so no stage after it runs — and the store is untouched. -/
theorem executePipeline_cleanStop (sf : StoreForwardInfo) (ctx : AppContext)
    (leading : List Transform) (f : Transform) (post : List Transform)
    (input v out : PipeValue) (store : List StoredObject)
    (hlead : runLeading ctx leading input = some v)
    (hf : f ctx v = (false, out)) (hnoterr : out.isError = false) :
    executePipeline sf (leading ++ f :: post) ctx input 0 store =
      (.ok, leading.length + 1, store) := by
  have happ := execLoop_append sf ctx leading (f :: post) 0 input v store hlead
  have hstop := execLoop_cleanStop sf ctx f post (0 + leading.length) v out store
    hf hnoterr
  rw [executePipeline, List.drop_zero, happ, hstop]

/-- Claim C4 witness: in a three-stage pipeline whose second stage stops
cleanly with the non-error output `"Transform1Result"`, the result is
success with exactly 2 stages invoked (the third never runs). -/
theorem executePipeline_cleanStop_witness :
    runLeading ctxPlain [tPass] (.data "event") = some (.data "event") ∧
    tStop ctxPlain (.data "event") = (false, .data "Transform1Result") ∧
    (PipeValue.data "Transform1Result").isError = false ∧
    executePipeline sfMain ([tPass] ++ tStop :: [tNext]) ctxPlain (.data "event")
      0 [] = (.ok, 2, []) := by
  have h := executePipeline_cleanStop sfMain ctxPlain [tPass] tStop [tNext]
    (.data "event") (.data "event") (.data "Transform1Result") [] rfl rfl rfl
  exact ⟨rfl, rfl, rfl, h⟩

/-- Claim C5: when the message-bus trigger completes a message with a
non-nil, non-empty response payload, the outbound envelope carries the
same correlation id and its content type is the context's explicit
response content type when set, else `application/json` when the first
payload byte is the open-curly-bracket byte, else `application/cbor`. -/
theorem messageBusResponse_contentType (cid rct : String) (b : Nat)
    (rest : List Nat) :
    messageBusResponse cid rct (some (b :: rest)) =
      some (some { correlationID := cid, payload := b :: rest,
                   contentType :=
                     if rct ≠ "" then rct
                     else if b = 123 then ContentTypeJSON else ContentTypeCBOR }) := by
  by_cases h : rct = "" <;> simp [messageBusResponse, h]

/-- Claim C10: the content-type inference reads byte 0 of the response
payload unguarded, so a non-nil zero-length response payload reaches the
out-of-range branch of the total embedding (`none`), while any non-nil
non-empty payload is processed safely. -/
theorem messageBusResponse_emptyPayload :
    messageBusResponse "123-234-345-456" "" (some []) = none ∧
    ∀ (cid rct : String) (b : Nat) (rest : List Nat),
      (messageBusResponse cid rct (some (b :: rest))).isSome = true := by
  refine ⟨rfl, ?_⟩
  intro cid rct b rest
  by_cases h : rct = "" <;> simp [messageBusResponse, h]

/-- Claim C6: normalizing a legacy (V1) event into the current shape
fills the `ProfileName` field — absent from the legacy schema — with the
literal `"Unknown"` on the event and on every reading, while carrying
the device name over and keeping one reading per legacy reading. -/
theorem unmarshalV1EventToV2Event_profileUnknown (v1 : V1Event) :
    (unmarshalV1EventToV2Event v1).profileName = "Unknown" ∧
    ((unmarshalV1EventToV2Event v1).readings.all
      fun r => r.profileName == "Unknown") = true ∧
    (unmarshalV1EventToV2Event v1).deviceName = v1.device ∧
    (unmarshalV1EventToV2Event v1).readings.length = v1.readings.length := by
  refine ⟨rfl, ?_, rfl, by simp [unmarshalV1EventToV2Event]⟩
  simp [unmarshalV1EventToV2Event, List.all_eq_true]

/-- Claim C7: registering a custom trigger factory under a name whose
upper-cased form equals a built-in trigger type (`HTTP`,
`EDGEX-MESSAGEBUS`, `EXTERNAL-MQTT`) is rejected with an error and the
registry is left untouched; any other name is registered under its
upper-cased key. -/
theorem registerCustomTriggerFactory_builtinGuard (α : Type) (name : String)
    (factory : α) (registry : List (String × α)) :
    (upperGo name = TriggerTypeHTTP ∨ upperGo name = TriggerTypeMessageBus ∨
        upperGo name = TriggerTypeMQTT →
      registerCustomTriggerFactory α name factory registry =
        .error ("cannot register custom trigger for builtin type (" ++ name ++ ")")) ∧
    (upperGo name ≠ TriggerTypeHTTP → upperGo name ≠ TriggerTypeMessageBus →
      upperGo name ≠ TriggerTypeMQTT →
      registerCustomTriggerFactory α name factory registry =
        .ok ((upperGo name, factory) :: registry)) := by
  constructor
  · intro h
    unfold registerCustomTriggerFactory
    rw [if_pos (by tauto)]
  · intro h1 h2 h3
    unfold registerCustomTriggerFactory
    rw [if_neg (by tauto)]

/-- Claim C7 witness: `"http"` collides with the built-in `HTTP` and is
rejected leaving the registry empty of effect, while `"my-trigger"` is
registered under `"MY-TRIGGER"`. -/
theorem registerCustomTriggerFactory_builtinGuard_witness :
    upperGo "http" = TriggerTypeHTTP ∧
    registerCustomTriggerFactory Nat "http" 0 [] =
      .error ("cannot register custom trigger for builtin type (" ++ "http" ++ ")") ∧
    upperGo "my-trigger" ≠ TriggerTypeHTTP ∧
    registerCustomTriggerFactory Nat "my-trigger" 7 [] =
      .ok [("MY-TRIGGER", 7)] := by
  refine ⟨by decide, ?_, by decide, ?_⟩
  · exact (registerCustomTriggerFactory_builtinGuard Nat "http" 0 []).1
      (Or.inl (by decide))
  · have h := (registerCustomTriggerFactory_builtinGuard Nat "my-trigger" 7 []).2
      (by decide) (by decide) (by decide)
    rw [show upperGo "my-trigger" = "MY-TRIGGER" from by decide] at h
    exact h

end AppFnSdk
